import Mathlib

/- Shallow embedding of the `contact` app of the ujjain_tour_and_travels
   Django backend: data model (src/contact/models.py), serializer-level
   validation (src/contact/serializers.py), view-level operations with
   their cache behaviour (src/contact/views.py) and the bulk admin
   actions (src/contact/admin.py).  Machine-level concerns (HTTP
   transport, database engine, email threads) are external collaborators
   and are not modelled; every modelled operation is a pure function on
   an explicit state. -/

namespace UjjainTT

/- ===== Python string primitives used by the serializers ===== -/

/-- Whitespace characters stripped by Python str.strip (the inputs in this
    code base are ASCII, so the ASCII whitespace set suffices). -/
def isPySpace (c : Char) : Bool :=
  c == ' ' || c == '\t' || c == '\n' || c == '\r'

/-- Model of Python str.strip(): drop leading and trailing whitespace. -/
def pyStrip (s : String) : String :=
  ⟨((s.data.dropWhile isPySpace).reverse.dropWhile isPySpace).reverse⟩

/-- ASCII lower-casing of one character (Python str.lower on the ASCII
    range; all emails in scope are ASCII). -/
def charLower (c : Char) : Char :=
  if 65 ≤ c.toNat ∧ c.toNat ≤ 90 then Char.ofNat (c.toNat + 32) else c

/-- Model of Python str.lower(). -/
def pyLower (s : String) : String := ⟨s.data.map charLower⟩

/-- Decimal digit test, as used by the phone regex \d. -/
def isDigitChar (c : Char) : Bool :=
  48 ≤ c.toNat && c.toNat ≤ 57

/-- ContactInquirySerializer.validate_phone: strip spaces, hyphens and
    parentheses from a submitted phone number. -/
def phoneClean (s : String) : String :=
  ⟨s.data.filter (fun c => c != ' ' && c != '-' && c != '(' && c != ')')⟩

/-- The phone RegexValidator of ContactInquiry
    (regex r"^\+?1?\d\x7b9,15\x7d$" in src/contact/models.py): an optional
    leading plus, an optional literal 1, then 9 to 15 digits.  A string of
    digits (after the optional plus) matches exactly when its length is in
    [9,15], or it is 16 long and starts with the literal 1. -/
def phoneRegexOk (s : String) : Bool :=
  let l := if s.data.head? == some '+' then s.data.tail else s.data
  l.all isDigitChar &&
    ((9 ≤ l.length && l.length ≤ 15) || (l.length == 16 && l.head? == some '1'))

/- ===== Data model (src/contact/models.py) ===== -/

/-- The four ContactInquiry.STATUS_CHOICES keys. -/
def inquiryStatusKeys : List String :=
  ["pending", "in_progress", "resolved", "closed"]

/-- The five ContactInquiry.INQUIRY_TYPES keys. -/
def inquiryTypeKeys : List String :=
  ["general", "booking", "package", "complaint", "feedback"]

/-- ContactInquiry record.  Timestamps are integer seconds; the id is the
    auto-increment primary key. -/
structure ContactInquiry where
  id : Nat
  full_name : String
  email : String
  phone : Option String
  inquiry_type : String
  subject : String
  message : String
  status : String
  admin_notes : Option String
  created_at : Nat
  updated_at : Nat
  is_active : Bool
deriving Repr, DecidableEq

/-- The three Review.STATUS_CHOICES keys. -/
def reviewStatusKeys : List String := ["pending", "approved", "rejected"]

/-- The ten Review.DESTINATION_CHOICES keys. -/
def destinationKeys : List String :=
  ["kashmir", "goa", "kerala", "rajasthan", "himachal", "uttarakhand",
   "andaman", "northeast", "ladakh", "other"]

/-- Review record.  travel_date is a day number; rating fields are the
    Python integers stored on the model. -/
structure Review where
  id : Nat
  customer_name : String
  customer_email : String
  destination : String
  package_name : Option String
  rating : Int
  title : String
  review_text : String
  travel_date : Int
  service_rating : Int
  value_rating : Int
  accommodation_rating : Int
  status : String
  is_featured : Bool
  admin_notes : Option String
  created_at : Nat
  updated_at : Nat
  is_active : Bool
deriving Repr, DecidableEq

/- ===== Python round() (banker's rounding) ===== -/

/-- Round a rational to the nearest integer, ties to the even integer.
    This is the rounding Python round() performs on an exactly
    representable value (every value fed to it in this code base is a
    quarter-integer, hence exact in binary floating point). -/
def roundHalfEven (q : ℚ) : ℤ :=
  if q - (⌊q⌋ : ℚ) < 1/2 then ⌊q⌋
  else if 1/2 < q - (⌊q⌋ : ℚ) then ⌊q⌋ + 1
  else if 2 ∣ ⌊q⌋ then ⌊q⌋ else ⌊q⌋ + 1

/-- Python round(x, 1): round to one decimal place, ties to even. -/
def pyRound1 (q : ℚ) : ℚ := (roundHalfEven (10 * q) : ℚ) / 10

/-- Review.get_average_rating: round((rating + service_rating +
    value_rating + accommodation_rating) / 4, 1). -/
def get_average_rating (r : Review) : ℚ :=
  pyRound1 (((r.rating : ℚ) + (r.service_rating : ℚ) + (r.value_rating : ℚ)
      + (r.accommodation_rating : ℚ)) / 4)

/-- The exact (unrounded) mean of the four rating fields. -/
def meanRating (r : Review) : ℚ :=
  ((r.rating : ℚ) + (r.service_rating : ℚ) + (r.value_rating : ℚ)
      + (r.accommodation_rating : ℚ)) / 4

/-- Review.get_rating_stars: the star character repeated rating times. -/
def get_rating_stars (r : Review) : String :=
  String.join (List.replicate r.rating.toNat "⭐")

/- ===== Serializer validation (src/contact/serializers.py) ===== -/

/-- ReviewSerializer.validate_travel_date: reject a travel date strictly
    later than the current date. -/
def validate_travel_date (today : Int) (value : Int) : Except String Int :=
  if today < value then Except.error "Travel date cannot be in the future"
  else Except.ok value

/-- Body of the POST /inquiries/\x7bid\x7d/update-status/ request
    (ContactInquiryStatusUpdateSerializer): status is required, admin_notes
    optional. -/
structure ContactInquiryStatusUpdateInput where
  status : String
  admin_notes : Option String

/-- Body of the POST /reviews/\x7bid\x7d/update-status/ request
    (ReviewStatusUpdateSerializer): status required, admin_notes and
    is_featured optional. -/
structure ReviewStatusUpdateInput where
  status : String
  admin_notes : Option String
  is_featured : Option Bool

/-- Raw fields of a POST /inquiries/ submission.  status, inquiry_type and
    is_active are writable serializer fields with model defaults, so a
    client may omit them (none) or supply them. -/
structure InquiryInput where
  full_name : String
  email : String
  phone : Option String
  inquiry_type : Option String
  subject : String
  message : String
  status : Option String
  admin_notes : Option String
  is_active : Option Bool

/-- Normalized fields after ContactInquirySerializer validation. -/
structure ValidInquiryData where
  full_name : String
  email : String
  phone : Option String
  inquiry_type : String
  subject : String
  message : String
  status : String
  admin_notes : Option String
  is_active : Bool

/-- A DRF ChoiceField with a model default: an omitted value yields the
    default, a supplied value must be one of the choice keys. -/
def validateChoiceField (keys : List String) (dflt : String) :
    Option String → Option String
  | none => some dflt
  | some t => if keys.contains t then some t else none

/-- The phone field: optional (null=True); a supplied value is cleaned by
    ContactInquirySerializer.validate_phone and must then satisfy the
    model RegexValidator. -/
def validatePhoneField : Option String → Option (Option String)
  | none => some none
  | some p =>
    let c := phoneClean p
    if phoneRegexOk c then some (some c) else none

/-- ContactInquirySerializer.is_valid: the field validators of
    src/contact/serializers.py (trimmed minimum lengths for full_name,
    subject, message; email normalization; phone cleaning plus the model
    regex) and the ChoiceField checks for inquiry_type and status.  The
    framework-level email shape check (Django EmailValidator) is external
    library code and is not modelled; no claim depends on it. -/
def ContactInquirySerializer.run_validation (inp : InquiryInput) :
    Option ValidInquiryData :=
  let name := pyStrip inp.full_name
  let subj := pyStrip inp.subject
  let msg := pyStrip inp.message
  if 2 ≤ name.data.length ∧ 5 ≤ subj.data.length ∧ 10 ≤ msg.data.length then
    match validatePhoneField inp.phone,
          validateChoiceField inquiryTypeKeys "general" inp.inquiry_type,
          validateChoiceField inquiryStatusKeys "pending" inp.status with
    | some ph, some ity, some stt =>
      some { full_name := name, email := pyLower (pyStrip inp.email),
             phone := ph, inquiry_type := ity, subject := subj, message := msg,
             status := stt, admin_notes := inp.admin_notes,
             is_active := inp.is_active.getD true }
    | _, _, _ => none
  else none

/- ===== Cache model ===== -/

/-- Cache keys.  The page* keys are the keys Django cache_page derives
    from the request URL (they never coincide with the manual keys below,
    whose names are the literal strings produced by get_cache_key). -/
inductive CacheKey where
  | pageInquiryList
  | pageInquiryStats
  | pageInquiryRecent
  | contact_inquiries_list
  | contact_inquiry_statistics
  | contact_inquiry_detail (pk : Nat)
  | pageReviewList
  | pageReviewStats
  | pageReviewApproved
  | pageReviewFeatured
  | reviews_list
  | review_statistics
  | reviews_approved
  | reviews_featured
  | review_detail (pk : Nat)
deriving Repr, DecidableEq, BEq

/-- The statistics payload of GET /inquiries/statistics/.  by_type maps
    each inquiry type key to its active count. -/
structure InquiryStats where
  total : Nat
  pending : Nat
  in_progress : Nat
  resolved : Nat
  closed : Nat
  by_type : List (String × Nat)
  recent_inquiries : Nat
deriving Repr, DecidableEq

/-- Values stored in the cache by the modelled read paths. -/
inductive CacheVal where
  | inqStats (s : InquiryStats)
deriving Repr, DecidableEq

/-- One cache entry: key, absolute expiry time, value. -/
structure CacheEntry where
  key : CacheKey
  expiry : Nat
  val : CacheVal
deriving Repr, DecidableEq

/-- The TTL key-value cache, as an association list. -/
abbrev Cache := List CacheEntry

/-- cache.get: the entry for the key, if present and not expired. -/
def cacheGet (now : Nat) (k : CacheKey) (c : Cache) : Option CacheVal :=
  match c.find? (fun e => e.key == k && Nat.blt now e.expiry) with
  | some e => some e.val
  | none => none

/-- cache.set with an absolute expiry: replaces any entry for the key. -/
def cacheSet (k : CacheKey) (expiry : Nat) (v : CacheVal) (c : Cache) : Cache :=
  { key := k, expiry := expiry, val := v } :: c.filter (fun e => e.key != k)

/-- cache.delete: removes the entry for the key, if any. -/
def cacheDelete (k : CacheKey) (c : Cache) : Cache :=
  c.filter (fun e => e.key != k)

/-- Whole-system state: the two stores, their auto-increment counters and
    the shared cache. -/
structure SysState where
  inquiries : List ContactInquiry
  reviews : List Review
  nextInquiryId : Nat
  nextReviewId : Nat
  cache : Cache
deriving Repr, DecidableEq

/- ===== ContactInquiryViewSet (src/contact/views.py) ===== -/

/-- ContactInquiry.objects.filter(is_active=True).count(). -/
def countActiveInquiries (db : List ContactInquiry) : Nat :=
  (db.filter (fun i => i.is_active)).length

/-- ContactInquiry.objects.filter(status=s, is_active=True).count(). -/
def countInquiriesWithStatus (s : String) (db : List ContactInquiry) : Nat :=
  (db.filter (fun i => i.status == s && i.is_active)).length

/-- ContactInquiry.objects.filter(inquiry_type=t, is_active=True).count(). -/
def countInquiriesWithType (t : String) (db : List ContactInquiry) : Nat :=
  (db.filter (fun i => i.inquiry_type == t && i.is_active)).length

/-- The statistics body computed by ContactInquiryViewSet.statistics
    (views.py lines 232-267); 604800 seconds is the 7-day recency
    window. -/
def ContactInquiryViewSet.computeStatistics (now : Nat)
    (db : List ContactInquiry) : InquiryStats :=
  { total := countActiveInquiries db
    pending := countInquiriesWithStatus "pending" db
    in_progress := countInquiriesWithStatus "in_progress" db
    resolved := countInquiriesWithStatus "resolved" db
    closed := countInquiriesWithStatus "closed" db
    by_type := inquiryTypeKeys.map (fun t => (t, countInquiriesWithType t db))
    recent_inquiries :=
      (db.filter (fun i =>
        Nat.ble (now - 604800) i.created_at && i.is_active)).length }

/-- GET /inquiries/statistics/: the view is wrapped in cache_page(60*10),
    which caches the rendered response for 10 minutes under a key derived
    from the URL (pageInquiryStats) - not under the manual
    contact_inquiry_statistics key. -/
def ContactInquiryViewSet.statistics (now : Nat) (st : SysState) :
    InquiryStats × SysState :=
  match cacheGet now CacheKey.pageInquiryStats st.cache with
  | some (CacheVal.inqStats s) => (s, st)
  | none =>
    let s := ContactInquiryViewSet.computeStatistics now st.inquiries
    (s, { st with cache := cacheSet CacheKey.pageInquiryStats (now + 600)
                    (CacheVal.inqStats s) st.cache })

/-- POST /inquiries/ (ContactInquiryViewSet.create, views.py lines
    90-127): validate, save the record (auto id and timestamps), fire the
    two notification emails (external side effect, no state change), then
    delete the contact_inquiries_list and contact_inquiry_statistics cache
    keys.  None on validation failure (HTTP 400). -/
def ContactInquiryViewSet.create (now : Nat) (inp : InquiryInput)
    (st : SysState) : Option (ContactInquiry × SysState) :=
  match ContactInquirySerializer.run_validation inp with
  | none => none
  | some v =>
    let inq : ContactInquiry :=
      { id := st.nextInquiryId, full_name := v.full_name, email := v.email,
        phone := v.phone, inquiry_type := v.inquiry_type, subject := v.subject,
        message := v.message, status := v.status, admin_notes := v.admin_notes,
        created_at := now, updated_at := now, is_active := v.is_active }
    some (inq,
      { st with
        inquiries := st.inquiries ++ [inq],
        nextInquiryId := st.nextInquiryId + 1,
        cache := cacheDelete CacheKey.contact_inquiry_statistics
                   (cacheDelete CacheKey.contact_inquiries_list st.cache) })

/-- Body of the JSON responses the mutating views return. -/
structure ResponseBody where
  status : String
  message : String
deriving Repr, DecidableEq

/-- An HTTP response: numeric status code and optional JSON body. -/
structure HttpResponse where
  statusCode : Nat
  body : Option ResponseBody
deriving Repr, DecidableEq

/-- self.get_object() of ContactInquiryViewSet: looks the pk up in the
    base queryset ContactInquiry.objects.filter(is_active=True); a miss is
    an HTTP 404. -/
def ContactInquiryViewSet.get_object (pk : Nat) (db : List ContactInquiry) :
    Option ContactInquiry :=
  (db.filter (fun i => i.is_active)).find? (fun i => i.id == pk)

/-- DELETE /inquiries/\x7bid\x7d/ (ContactInquiryViewSet.destroy, views.py
    lines 165-186): soft delete - set is_active False on the row with this
    primary key, save (refreshing updated_at), clear the three inquiry
    cache keys, and answer 204 with a success body. -/
def ContactInquiryViewSet.destroy (now : Nat) (pk : Nat) (st : SysState) :
    Option (HttpResponse × SysState) :=
  match ContactInquiryViewSet.get_object pk st.inquiries with
  | none => none
  | some _ =>
    some
      ({ statusCode := 204,
         body := some { status := "success",
                        message := "Inquiry deleted successfully" } },
       { st with
         inquiries := st.inquiries.map (fun i =>
           if i.id == pk then { i with is_active := false, updated_at := now }
           else i),
         cache := cacheDelete CacheKey.contact_inquiry_statistics
                    (cacheDelete CacheKey.contact_inquiries_list
                      (cacheDelete (CacheKey.contact_inquiry_detail pk)
                        st.cache)) })

/-- POST /inquiries/\x7bid\x7d/update-status/ on one fetched record
    (views.py lines 188-220): the serializer requires a valid status
    choice; admin_notes is written only when present in the validated
    data; save() refreshes updated_at.  None when the serializer is
    invalid (HTTP 400, record untouched). -/
def ContactInquiryViewSet.update_status (now : Nat) (inq : ContactInquiry)
    (inp : ContactInquiryStatusUpdateInput) : Option ContactInquiry :=
  if inquiryStatusKeys.contains inp.status then
    some { inq with
           status := inp.status,
           admin_notes := match inp.admin_notes with
                          | some n => some n
                          | none => inq.admin_notes,
           updated_at := now }
  else none

/- ===== ReviewViewSet (src/contact/views.py) ===== -/

/-- self.get_object() of ReviewViewSet: base queryset
    Review.objects.filter(is_active=True). -/
def ReviewViewSet.get_object (pk : Nat) (db : List Review) : Option Review :=
  (db.filter (fun r => r.is_active)).find? (fun r => r.id == pk)

/-- DELETE /reviews/\x7bid\x7d/ (ReviewViewSet.destroy, views.py lines
    436-455): soft delete, clear the five review cache keys, answer 204
    with a success body. -/
def ReviewViewSet.destroy (now : Nat) (pk : Nat) (st : SysState) :
    Option (HttpResponse × SysState) :=
  match ReviewViewSet.get_object pk st.reviews with
  | none => none
  | some _ =>
    some
      ({ statusCode := 204,
         body := some { status := "success",
                        message := "Review deleted successfully" } },
       { st with
         reviews := st.reviews.map (fun r =>
           if r.id == pk then { r with is_active := false, updated_at := now }
           else r),
         cache := cacheDelete CacheKey.reviews_featured
                    (cacheDelete CacheKey.reviews_approved
                      (cacheDelete CacheKey.review_statistics
                        (cacheDelete CacheKey.reviews_list
                          (cacheDelete (CacheKey.review_detail pk)
                            st.cache)))) })

/-- POST /reviews/\x7bid\x7d/update-status/ on one fetched record
    (views.py lines 457-489): valid status choice required; admin_notes
    and is_featured are each written only when present in the validated
    data - is_featured is not gated on the status value. -/
def ReviewViewSet.update_status (now : Nat) (r : Review)
    (inp : ReviewStatusUpdateInput) : Option Review :=
  if reviewStatusKeys.contains inp.status then
    some { r with
           status := inp.status,
           admin_notes := match inp.admin_notes with
                          | some n => some n
                          | none => r.admin_notes,
           is_featured := match inp.is_featured with
                          | some b => b
                          | none => r.is_featured,
           updated_at := now }
  else none

/-- Responses of GET /reviews/by-destination/. -/
inductive ByDestinationResponse where
  | badRequest (error : String)
  | ok (data : List Review)
deriving Repr, DecidableEq

/-- GET /reviews/by-destination/ (views.py lines 579-602): the query
    parameter is read with default None; Python treats both None and the
    empty string as falsy, answering 400; otherwise the approved, active
    reviews for the destination, newest first. -/
def ReviewViewSet.by_destination (param : Option String) (db : List Review) :
    ByDestinationResponse :=
  match param with
  | none => ByDestinationResponse.badRequest "destination parameter is required"
  | some d =>
    if d == "" then
      ByDestinationResponse.badRequest "destination parameter is required"
    else
      ByDestinationResponse.ok
        ((db.filter (fun r =>
            r.destination == d && r.status == "approved" && r.is_active)).mergeSort
          (fun a b => Nat.ble b.created_at a.created_at))

/- ===== ReviewAdmin bulk actions (src/contact/admin.py) ===== -/

/-- ReviewAdmin.feature_reviews (admin.py lines 214-219):
    queryset.filter(status="approved").update(is_featured=True) - only the
    already-approved rows of the selected queryset are updated; a queryset
    update bypasses save(), so no other field (not even updated_at)
    changes. -/
def ReviewAdmin.feature_reviews (qs : List Review) : List Review :=
  qs.map (fun r =>
    if r.status == "approved" then { r with is_featured := true } else r)

/- ===== Concrete values used by counterexamples and witnesses ===== -/

/-- The empty system state a fresh deployment starts from. -/
def emptySysState : SysState :=
  { inquiries := [], reviews := [], nextInquiryId := 1, nextReviewId := 1,
    cache := [] }

/-- A well-formed public inquiry submission (no optional fields). -/
def c1InputA : InquiryInput :=
  { full_name := "Alice Kumar", email := "alice@example.com", phone := none,
    inquiry_type := none, subject := "Ujjain darshan package",
    message := "Please share the itinerary and pricing.", status := none,
    admin_notes := none, is_active := none }

/-- A second well-formed public inquiry submission. -/
def c1InputB : InquiryInput :=
  { full_name := "Meera Joshi", email := "meera@example.com", phone := none,
    inquiry_type := none, subject := "Mahakal temple visit",
    message := "Need a two day plan for the temple visit.", status := none,
    admin_notes := none, is_active := none }

/-- A pending review with ratings (5, 4, 3, 5). -/
def c3Review : Review :=
  { id := 1, customer_name := "Ravi Sharma",
    customer_email := "ravi@example.com", destination := "goa",
    package_name := none, rating := 5, title := "Great trip",
    review_text := "Wonderful experience overall!", travel_date := 0,
    service_rating := 4, value_rating := 3, accommodation_rating := 5,
    status := "pending", is_featured := false, admin_notes := none,
    created_at := 0, updated_at := 0, is_active := true }

/-- Review.objects.filter(is_active=True).count() - the total_reviews
    count of ReviewViewSet.statistics (views.py line 497). -/
def countActiveReviews (db : List Review) : Nat :=
  (db.filter (fun r => r.is_active)).length

/-- An approved, active review used to exercise the by-destination
    endpoint. -/
def c7Review : Review :=
  { id := 2, customer_name := "Asha Patel",
    customer_email := "asha@example.com", destination := "goa",
    package_name := none, rating := 4, title := "Lovely beaches",
    review_text := "The beaches were clean and quiet.", travel_date := 0,
    service_rating := 5, value_rating := 4, accommodation_rating := 5,
    status := "approved", is_featured := false, admin_notes := none,
    created_at := 10, updated_at := 10, is_active := true }

/-- A store holding one active inquiry and one active review, both with
    primary key 1. -/
def c8State : SysState :=
  { inquiries :=
      [{ id := 1, full_name := "Alice Kumar", email := "alice@example.com",
         phone := none, inquiry_type := "general",
         subject := "Ujjain darshan package",
         message := "Please share the itinerary and pricing.",
         status := "pending", admin_notes := none, created_at := 0,
         updated_at := 0, is_active := true }],
    reviews :=
      [{ id := 1, customer_name := "Ravi Sharma",
         customer_email := "ravi@example.com", destination := "kerala",
         package_name := none, rating := 5, title := "Backwater cruise",
         review_text := "The houseboat stay was serene.", travel_date := 0,
         service_rating := 5, value_rating := 5, accommodation_rating := 5,
         status := "approved", is_featured := false, admin_notes := none,
         created_at := 0, updated_at := 0, is_active := true }],
    nextInquiryId := 2, nextReviewId := 2, cache := [] }

/-- The HTTP response of a successful inquiry DELETE. -/
def c8RespI : HttpResponse :=
  { statusCode := 204,
    body := some { status := "success",
                   message := "Inquiry deleted successfully" } }

/-- The HTTP response of a successful review DELETE. -/
def c8RespR : HttpResponse :=
  { statusCode := 204,
    body := some { status := "success",
                   message := "Review deleted successfully" } }

/-- State after soft-deleting inquiry 1 of c8State at time 5. -/
def c8StateI : SysState :=
  { c8State with
    inquiries :=
      [{ id := 1, full_name := "Alice Kumar", email := "alice@example.com",
         phone := none, inquiry_type := "general",
         subject := "Ujjain darshan package",
         message := "Please share the itinerary and pricing.",
         status := "pending", admin_notes := none, created_at := 0,
         updated_at := 5, is_active := false }] }

/-- State after soft-deleting review 1 of c8State at time 5. -/
def c8StateR : SysState :=
  { c8State with
    reviews :=
      [{ id := 1, customer_name := "Ravi Sharma",
         customer_email := "ravi@example.com", destination := "kerala",
         package_name := none, rating := 5, title := "Backwater cruise",
         review_text := "The houseboat stay was serene.", travel_date := 0,
         service_rating := 5, value_rating := 5, accommodation_rating := 5,
         status := "approved", is_featured := false, admin_notes := none,
         created_at := 0, updated_at := 5, is_active := false }] }

/-- State after soft-deleting inquiry 1 of c8State at time 9. -/
def c5StateI : SysState :=
  { c8State with
    inquiries :=
      [{ id := 1, full_name := "Alice Kumar", email := "alice@example.com",
         phone := none, inquiry_type := "general",
         subject := "Ujjain darshan package",
         message := "Please share the itinerary and pricing.",
         status := "pending", admin_notes := none, created_at := 0,
         updated_at := 9, is_active := false }] }

/-- State after soft-deleting review 1 of c8State at time 9. -/
def c5StateR : SysState :=
  { c8State with
    reviews :=
      [{ id := 1, customer_name := "Ravi Sharma",
         customer_email := "ravi@example.com", destination := "kerala",
         package_name := none, rating := 5, title := "Backwater cruise",
         review_text := "The houseboat stay was serene.", travel_date := 0,
         service_rating := 5, value_rating := 5, accommodation_rating := 5,
         status := "approved", is_featured := false, admin_notes := none,
         created_at := 0, updated_at := 9, is_active := false }] }

/-- A pending review for the C2 witness. -/
def c2Review : Review :=
  { id := 3, customer_name := "Nisha Rao",
    customer_email := "nisha@example.com", destination := "ladakh",
    package_name := none, rating := 5, title := "Stunning passes",
    review_text := "The mountain passes were stunning.", travel_date := 0,
    service_rating := 5, value_rating := 4, accommodation_rating := 4,
    status := "pending", is_featured := false, admin_notes := none,
    created_at := 3, updated_at := 3, is_active := true }

/-- A submission that passes all field validation but explicitly supplies
    status closed and is_active false (both are writable serializer
    fields, validated only against the choice list). -/
def c4BadInput : InquiryInput :=
  { full_name := "Bob Singh", email := "bob@example.com", phone := none,
    inquiry_type := some "booking", subject := "Booking question",
    message := "I want to book a tour for my family.",
    status := some "closed", admin_notes := none, is_active := some false }

/-- The same submission with the optional status and is_active omitted. -/
def c4GoodInput : InquiryInput :=
  { full_name := "Bob Singh", email := "bob@example.com", phone := none,
    inquiry_type := some "booking", subject := "Booking question",
    message := "I want to book a tour for my family.",
    status := none, admin_notes := none, is_active := none }

/-- The record created from c4GoodInput on the empty store at time 0. -/
def c4Record : ContactInquiry :=
  { id := 1, full_name := "Bob Singh", email := "bob@example.com",
    phone := none, inquiry_type := "booking", subject := "Booking question",
    message := "I want to book a tour for my family.", status := "pending",
    admin_notes := none, created_at := 0, updated_at := 0, is_active := true }

/-- The system state after creating c4Record on the empty store. -/
def c4StateAfter : SysState :=
  { inquiries := [c4Record], reviews := [], nextInquiryId := 2,
    nextReviewId := 1, cache := [] }

/-- A store with inquiries in three different statuses, one of them
    soft-deleted. -/
def c9Db : List ContactInquiry :=
  [{ id := 1, full_name := "Alice Kumar", email := "alice@example.com",
     phone := none, inquiry_type := "general",
     subject := "Ujjain darshan package",
     message := "Please share the itinerary and pricing.",
     status := "pending", admin_notes := none, created_at := 0,
     updated_at := 0, is_active := true },
   { id := 2, full_name := "Meera Joshi", email := "meera@example.com",
     phone := none, inquiry_type := "booking",
     subject := "Mahakal temple visit",
     message := "Need a two day plan for the temple visit.",
     status := "resolved", admin_notes := none, created_at := 1,
     updated_at := 1, is_active := true },
   { id := 3, full_name := "Dev Gupta", email := "dev@example.com",
     phone := none, inquiry_type := "general", subject := "Query about cabs",
     message := "Do you provide cab pickup in Indore?",
     status := "closed", admin_notes := none, created_at := 2,
     updated_at := 2, is_active := false }]

/-- An inquiry with an existing admin note. -/
def c10Inq : ContactInquiry :=
  { id := 4, full_name := "Dev Gupta", email := "dev@example.com",
    phone := none, inquiry_type := "general", subject := "Query about cabs",
    message := "Do you provide cab pickup in Indore?", status := "pending",
    admin_notes := some "called once", created_at := 2, updated_at := 2,
    is_active := true }

/-- A status-update body for c10Inq omitting admin_notes. -/
def c10InqIn : ContactInquiryStatusUpdateInput :=
  { status := "in_progress", admin_notes := none }

/-- c10Inq after the status update at time 11. -/
def c10InqRes : ContactInquiry :=
  { c10Inq with status := "in_progress", updated_at := 11 }

/-- A review with an existing admin note and featured flag. -/
def c10Rev : Review :=
  { id := 5, customer_name := "Om Prakash", customer_email := "om@example.com",
    destination := "kashmir", package_name := some "Valley special",
    rating := 4, title := "Snowy peaks",
    review_text := "Gulmarg in winter is magical.", travel_date := 3,
    service_rating := 4, value_rating := 4, accommodation_rating := 3,
    status := "pending", is_featured := true,
    admin_notes := some "verify booking", created_at := 4, updated_at := 4,
    is_active := true }

/-- A status-update body for c10Rev omitting admin_notes and
    is_featured. -/
def c10RevIn : ReviewStatusUpdateInput :=
  { status := "rejected", admin_notes := none, is_featured := none }

/-- c10Rev after the status update at time 11. -/
def c10RevRes : Review :=
  { c10Rev with status := "rejected", updated_at := 11 }

/- ===== C1 ===== -/

/-- C1: refuted by evaluation - the statistics endpoint is cached by
    cache_page under a URL-derived key, while create deletes the manual
    contact_inquiry_statistics key that no read path ever populates.  In
    the trace below, inquiry A is created at t=0, statistics are read at
    t=60 (total = 1, cached for 600 s), inquiry B is created at t=120, and
    the statistics read at t=180 still reports total = 1 even though 2
    inquiries are active: the response after the second create is NOT
    total = N + 1, contradicting the claim. -/
theorem C1_statistics_cache_not_invalidated :
    ((ContactInquiryViewSet.create 0 c1InputA emptySysState).bind (fun p1 =>
      (ContactInquiryViewSet.create 120 c1InputB
          (ContactInquiryViewSet.statistics 60 p1.2).2).map (fun p2 =>
        ((ContactInquiryViewSet.statistics 60 p1.2).1.total,
         (ContactInquiryViewSet.statistics 180 p2.2).1.total,
         countActiveInquiries p2.2.inquiries))))
      = some (1, 1, 2) := by decide

/- ===== C3 ===== -/

/-- Helper: roundHalfEven lands within a half of its argument. -/
theorem roundHalfEven_sub_le (q : ℚ) : |(roundHalfEven q : ℚ) - q| ≤ 1/2 := by
  unfold roundHalfEven
  have h1 : (⌊q⌋ : ℚ) ≤ q := Int.floor_le q
  have h2 : q < ⌊q⌋ + 1 := Int.lt_floor_add_one q
  split
  · rw [abs_le]; constructor <;> linarith
  · split
    · rw [abs_le]; push_cast; constructor <;> linarith
    · split <;> (rw [abs_le]; push_cast; constructor <;> linarith)

/-- Helper: at an exact tie, roundHalfEven picks the even integer. -/
theorem roundHalfEven_tie_even (q : ℚ) (h : q - (⌊q⌋ : ℚ) = 1/2) :
    2 ∣ roundHalfEven q := by
  unfold roundHalfEven
  rw [h]
  norm_num
  split
  · assumption
  · rename_i hodd
    omega

/-- C3 counterexample: for ratings (5, 4, 3, 5) the mean is 4.25, and
    get_average_rating returns 4.2 (= 21/5), not 4.3 (= 43/10): Python
    round() rounds the tie 4.25 to the even tenth 4.2. -/
theorem C3_counterexample :
    meanRating c3Review = 17/4 ∧
    get_average_rating c3Review = 21/5 ∧
    get_average_rating c3Review ≠ 43/10 := by
  have hfloor : ⌊(10 * (17/4 : ℚ))⌋ = 42 := by norm_num [Int.floor_eq_iff]
  have hmean : meanRating c3Review = 17/4 := by
    norm_num [meanRating, c3Review]
  have havg : get_average_rating c3Review = 21/5 := by
    have h1 : get_average_rating c3Review = pyRound1 (17/4) := by
      unfold get_average_rating pyRound1
      norm_num [c3Review]
    rw [h1]
    unfold pyRound1 roundHalfEven
    rw [hfloor]
    norm_num
  exact ⟨hmean, havg, by rw [havg]; norm_num⟩

/-- C3 amended: get_average_rating is the mean of the four rating fields
    rounded to one decimal place with ties to the even tenth: it is an
    integer number of tenths, differs from the exact mean by at most 1/20,
    and at an exact tie the chosen tenth is even.  (For ratings (5,4,3,5)
    the mean 4.25 therefore rounds to 4.2, not 4.3.) -/
theorem C3_average_rating_half_even (r : Review) :
    (∃ k : ℤ, get_average_rating r = (k : ℚ)/10) ∧
    |get_average_rating r - meanRating r| ≤ 1/20 ∧
    (10 * meanRating r - (⌊10 * meanRating r⌋ : ℚ) = 1/2 →
      ∃ k : ℤ, get_average_rating r = (2 * k : ℚ)/10) := by
  have hdef : get_average_rating r = pyRound1 (meanRating r) := rfl
  refine ⟨⟨roundHalfEven (10 * meanRating r), hdef⟩, ?_, ?_⟩
  · rw [hdef]
    unfold pyRound1
    have hb := roundHalfEven_sub_le (10 * meanRating r)
    rw [show (roundHalfEven (10 * meanRating r) : ℚ) / 10 - meanRating r
          = ((roundHalfEven (10 * meanRating r) : ℚ) - 10 * meanRating r) / 10
        by ring, abs_div]
    rw [show |(10 : ℚ)| = 10 by norm_num]
    linarith
  · intro htie
    obtain ⟨k, hk⟩ := roundHalfEven_tie_even (10 * meanRating r) (by linarith)
    exact ⟨k, by rw [hdef]; unfold pyRound1; rw [hk]; push_cast; ring⟩

/- ===== C6 ===== -/

/-- C6: ReviewSerializer.validate_travel_date rejects a travel date
    exactly when it is strictly later than the current date: tomorrow
    (today + 1) is rejected with the validation error, today itself is
    accepted. -/
theorem C6_travel_date_validation (today value : Int) :
    (validate_travel_date today value
        = Except.error "Travel date cannot be in the future" ↔ today < value) ∧
    validate_travel_date today (today + 1)
      = Except.error "Travel date cannot be in the future" ∧
    validate_travel_date today today = Except.ok today := by
  unfold validate_travel_date
  refine ⟨?_, by simp, by simp⟩
  split
  · simp_all
  · rename_i hn
    simp_all

/- ===== C7 ===== -/

/-- C7 counterexample: a request whose destination parameter is present
    but empty is answered with the 400 error, not with the (empty) list of
    approved active reviews for that destination - Python treats the empty
    string as falsy on this path. -/
theorem C7_counterexample :
    ReviewViewSet.by_destination (some "") []
        = ByDestinationResponse.badRequest "destination parameter is required" ∧
    ([] : List Review).filter (fun r =>
        r.destination == "" && r.status == "approved" && r.is_active) = [] ∧
    ByDestinationResponse.badRequest "destination parameter is required"
        ≠ ByDestinationResponse.ok [] := by
  refine ⟨rfl, rfl, by decide⟩

/-- C7 amended: a missing destination parameter - and likewise a present
    but empty one - yields the 400 client error; a present non-empty
    parameter yields exactly the approved, active reviews for that
    destination. -/
theorem C7_by_destination_contract (param : Option String) (db : List Review)
    (d : String) (hp : param = some d) (hd : d ≠ "") :
    ReviewViewSet.by_destination none db
        = ByDestinationResponse.badRequest "destination parameter is required" ∧
    ReviewViewSet.by_destination (some "") db
        = ByDestinationResponse.badRequest "destination parameter is required" ∧
    ∃ l, ReviewViewSet.by_destination param db = ByDestinationResponse.ok l ∧
      ∀ r, r ∈ l ↔ r ∈ db ∧ r.destination = d ∧ r.status = "approved"
          ∧ r.is_active = true := by
  subst hp
  refine ⟨rfl, by simp [ReviewViewSet.by_destination], ?_⟩
  simp only [ReviewViewSet.by_destination]
  rw [if_neg (by simpa using hd)]
  refine ⟨_, rfl, fun r => ?_⟩
  rw [List.Perm.mem_iff (List.mergeSort_perm _ _)]
  simp [List.mem_filter, and_assoc]

/-- C7 witness: the amended contract evaluated for destination goa on a
    one-review store. -/
theorem C7_witness :
    ReviewViewSet.by_destination none [c7Review]
        = ByDestinationResponse.badRequest "destination parameter is required" ∧
    ReviewViewSet.by_destination (some "") [c7Review]
        = ByDestinationResponse.badRequest "destination parameter is required" ∧
    ∃ l, ReviewViewSet.by_destination (some "goa") [c7Review]
        = ByDestinationResponse.ok l ∧
      ∀ r, r ∈ l ↔ r ∈ [c7Review] ∧ r.destination = "goa"
          ∧ r.status = "approved" ∧ r.is_active = true :=
  C7_by_destination_contract (some "goa") [c7Review] "goa" rfl (by decide)

/- ===== C8 ===== -/

/-- C8 counterexample: both destroy endpoints answer with status code 204
    AND a JSON success body - the response is not body-less as the claim
    states. -/
theorem C8_counterexample :
    (ContactInquiryViewSet.destroy 5 1 c8State).map (fun p => p.1)
        = some { statusCode := 204,
                 body := some { status := "success",
                                message := "Inquiry deleted successfully" } } ∧
    (ReviewViewSet.destroy 5 1 c8State).map (fun p => p.1)
        = some { statusCode := 204,
                 body := some { status := "success",
                                message := "Review deleted successfully" } } ∧
    (some { status := "success", message := "Inquiry deleted successfully" }
        : Option ResponseBody) ≠ none := by
  refine ⟨by decide, by decide, by decide⟩

/-- C8 amended: every successful DELETE answers with the no-content status
    code 204, but the response carries a JSON success-message body rather
    than no body. -/
theorem C8_destroy_status_and_body (now pkI pkR : Nat) (st : SysState)
    (respI : HttpResponse) (stI : SysState)
    (respR : HttpResponse) (stR : SysState)
    (hI : ContactInquiryViewSet.destroy now pkI st = some (respI, stI))
    (hR : ReviewViewSet.destroy now pkR st = some (respR, stR)) :
    respI.statusCode = 204 ∧
    respI.body = some { status := "success",
                        message := "Inquiry deleted successfully" } ∧
    respR.statusCode = 204 ∧
    respR.body = some { status := "success",
                        message := "Review deleted successfully" } := by
  unfold ContactInquiryViewSet.destroy at hI
  unfold ReviewViewSet.destroy at hR
  cases hgi : ContactInquiryViewSet.get_object pkI st.inquiries <;>
    simp only [hgi] at hI
  · exact absurd hI (by simp)
  cases hgr : ReviewViewSet.get_object pkR st.reviews <;>
    simp only [hgr] at hR
  · exact absurd hR (by simp)
  obtain ⟨h1, -⟩ := Prod.mk.injEq .. ▸ Option.some.inj hI
  obtain ⟨h2, -⟩ := Prod.mk.injEq .. ▸ Option.some.inj hR
  subst h1 h2
  exact ⟨rfl, rfl, rfl, rfl⟩

/-- C8 witness: the amended statement evaluated on the one-record store,
    deleting inquiry 1 and review 1 at time 5. -/
theorem C8_witness :
    c8RespI.statusCode = 204 ∧
    c8RespI.body = some { status := "success",
                          message := "Inquiry deleted successfully" } ∧
    c8RespR.statusCode = 204 ∧
    c8RespR.body = some { status := "success",
                          message := "Review deleted successfully" } :=
  C8_destroy_status_and_body 5 1 1 c8State c8RespI c8StateI c8RespR c8StateR
    (by decide) (by decide)

/- ===== C2 ===== -/

/-- C2: the single-record status action accepts is_featured together with
    any valid status - on a pending review, status approved with
    is_featured true succeeds and sets both - while the bulk admin action
    features only the rows already approved and returns every other
    selected row unchanged. -/
theorem C2_feature_asymmetry (now : Nat) (r : Review)
    (_hp : r.status = "pending") (rs : List Review) (i : Nat) (s : Review)
    (hs : rs[i]? = some s) :
    (∃ r', ReviewViewSet.update_status now r
        { status := "approved", admin_notes := none, is_featured := some true }
          = some r' ∧ r'.status = "approved" ∧ r'.is_featured = true) ∧
    (ReviewAdmin.feature_reviews rs)[i]? =
      some (if s.status = "approved" then { s with is_featured := true }
            else s) := by
  constructor
  · exact Exists.intro
      { r with status := "approved", is_featured := true, updated_at := now }
      ⟨rfl, rfl, rfl⟩
  · simp only [ReviewAdmin.feature_reviews, List.getElem?_map, hs,
      Option.map_some']
    by_cases h : s.status = "approved" <;> simp [h]

/-- C2 witness: the asymmetry evaluated on a concrete pending review. -/
theorem C2_witness :
    (∃ r', ReviewViewSet.update_status 7 c2Review
        { status := "approved", admin_notes := none, is_featured := some true }
          = some r' ∧ r'.status = "approved" ∧ r'.is_featured = true) ∧
    (ReviewAdmin.feature_reviews [c2Review])[0]? =
      some (if c2Review.status = "approved"
            then { c2Review with is_featured := true } else c2Review) :=
  C2_feature_asymmetry 7 c2Review rfl [c2Review] 0 c2Review rfl

/- ===== C4 ===== -/

/-- C4 counterexample: the create endpoint accepts c4BadInput, and the
    stored record has status closed and is_active false - not pending and
    true as the claim asserts of every submission that passes field
    validation. -/
theorem C4_counterexample :
    (ContactInquiryViewSet.create 0 c4BadInput emptySysState).map
        (fun p => (p.1.status, p.1.is_active)) = some ("closed", false) ∧
    ("closed" : String) ≠ "pending" := by
  exact ⟨by decide, by decide⟩

/-- Helper: when the optional status and is_active fields are omitted from
    the submission, validation fills in the model defaults pending and
    true. -/
theorem run_validation_defaults (inp : InquiryInput) (v : ValidInquiryData)
    (hs : inp.status = none) (ha : inp.is_active = none)
    (h : ContactInquirySerializer.run_validation inp = some v) :
    v.status = "pending" ∧ v.is_active = true := by
  unfold ContactInquirySerializer.run_validation at h
  rw [hs] at h
  split at h
  · rename_i ph ity stt hph hity hstt
    dsimp only at h
    split at h
    · injection h with h
      subst h
      simp only [validateChoiceField] at hstt
      injection hstt with hstt
      subst hstt
      exact ⟨rfl, by simp [ha]⟩
    · exact absurd h (by simp)
  · exact absurd h (by simp)

/-- C4 amended: for every submission that passes validation and omits the
    writable status and is_active fields, the created record has status
    pending and is_active true. -/
theorem C4_create_defaults_pending_active (now : Nat) (inp : InquiryInput)
    (st : SysState) (c : ContactInquiry) (st' : SysState)
    (hs : inp.status = none) (ha : inp.is_active = none)
    (h : ContactInquiryViewSet.create now inp st = some (c, st')) :
    c.status = "pending" ∧ c.is_active = true := by
  unfold ContactInquiryViewSet.create at h
  cases hv : ContactInquirySerializer.run_validation inp <;>
    simp only [hv] at h
  · exact absurd h (by simp)
  · rename_i v
    obtain ⟨hd, hv2⟩ := run_validation_defaults inp v hs ha hv
    obtain ⟨h1, -⟩ := Prod.mk.injEq .. ▸ Option.some.inj h
    subst h1
    exact ⟨hd, hv2⟩

/-- C4 witness: the amended statement evaluated on c4GoodInput over the
    empty store. -/
theorem C4_witness : c4Record.status = "pending" ∧ c4Record.is_active = true :=
  C4_create_defaults_pending_active 0 c4GoodInput emptySysState c4Record
    c4StateAfter rfl rfl (by decide)

/- ===== C5 ===== -/

/-- Helper: after the soft-delete map, every record carrying the deleted
    primary key is inactive. -/
theorem softDelete_inquiry_inactive (now pk : Nat) (db : List ContactInquiry) :
    ∀ i ∈ db.map (fun i => if i.id == pk
        then { i with is_active := false, updated_at := now } else i),
      i.id = pk → i.is_active = false := by
  intro i hi hip
  obtain ⟨j, hj, rfl⟩ := List.mem_map.mp hi
  by_cases hjp : (j.id == pk) = true
  · simp [hjp]
  · rw [if_neg hjp] at hip ⊢
    exact absurd (by simp [hip]) hjp

/-- Helper: review version of softDelete_inquiry_inactive. -/
theorem softDelete_review_inactive (now pk : Nat) (db : List Review) :
    ∀ r ∈ db.map (fun r => if r.id == pk
        then { r with is_active := false, updated_at := now } else r),
      r.id = pk → r.is_active = false := by
  intro r hr hrp
  obtain ⟨j, hj, rfl⟩ := List.mem_map.mp hr
  by_cases hjp : (j.id == pk) = true
  · simp [hjp]
  · rw [if_neg hjp] at hrp ⊢
    exact absurd (by simp [hrp]) hjp

/-- Helper: on a list whose pk-records are all inactive, the active filter
    contains no pk-record and is unchanged by additionally excluding
    pk. -/
theorem filter_active_excludes_inquiry (pk : Nat) (l : List ContactInquiry)
    (hl : ∀ i ∈ l, i.id = pk → i.is_active = false) :
    (∀ i ∈ l.filter (fun i => i.is_active), i.id ≠ pk) ∧
    (l.filter (fun i => i.is_active)).length =
      (l.filter (fun i => i.is_active && i.id != pk)).length := by
  constructor
  · intro i hi hip
    obtain ⟨hm, ha⟩ := List.mem_filter.mp hi
    rw [hl i hm hip] at ha
    exact Bool.false_ne_true ha
  · refine congrArg List.length (List.filter_congr ?_)
    intro a hma
    by_cases hap : a.id = pk
    · rw [hl a hma hap]
      simp
    · simp [hap]

/-- Helper: review version of filter_active_excludes_inquiry. -/
theorem filter_active_excludes_review (pk : Nat) (l : List Review)
    (hl : ∀ r ∈ l, r.id = pk → r.is_active = false) :
    (∀ r ∈ l.filter (fun r => r.is_active), r.id ≠ pk) ∧
    (l.filter (fun r => r.is_active)).length =
      (l.filter (fun r => r.is_active && r.id != pk)).length := by
  constructor
  · intro r hr hrp
    obtain ⟨hm, ha⟩ := List.mem_filter.mp hr
    rw [hl r hm hrp] at ha
    exact Bool.false_ne_true ha
  · refine congrArg List.length (List.filter_congr ?_)
    intro a hma
    by_cases hap : a.id = pk
    · rw [hl a hma hap]
      simp
    · simp [hap]

/-- Helper: the soft-delete map rewrites the record find? returns for the
    deleted primary key, leaving it present with is_active false. -/
theorem find_softDelete_inquiry (now pk : Nat) (db : List ContactInquiry)
    (r : ContactInquiry) (h : db.find? (fun i => i.id == pk) = some r) :
    (db.map (fun i => if i.id == pk
        then { i with is_active := false, updated_at := now } else i)).find?
        (fun i => i.id == pk)
      = some { r with is_active := false, updated_at := now } := by
  induction db with
  | nil => simp at h
  | cons a t ih =>
    by_cases hid : (a.id == pk) = true
    · simp only [List.find?_cons, hid] at h
      injection h with h
      subst h
      simp only [List.map_cons]
      rw [if_pos hid]
      simp [List.find?_cons, hid]
    · have hid' : (a.id == pk) = false := by simpa using hid
      simp only [List.find?_cons, hid'] at h
      simp only [List.map_cons]
      rw [if_neg hid]
      simp only [List.find?_cons, hid']
      exact ih h

/-- Helper: review version of find_softDelete_inquiry. -/
theorem find_softDelete_review (now pk : Nat) (db : List Review)
    (r : Review) (h : db.find? (fun x => x.id == pk) = some r) :
    (db.map (fun x => if x.id == pk
        then { x with is_active := false, updated_at := now } else x)).find?
        (fun x => x.id == pk)
      = some { r with is_active := false, updated_at := now } := by
  induction db with
  | nil => simp at h
  | cons a t ih =>
    by_cases hid : (a.id == pk) = true
    · simp only [List.find?_cons, hid] at h
      injection h with h
      subst h
      simp only [List.map_cons]
      rw [if_pos hid]
      simp [List.find?_cons, hid]
    · have hid' : (a.id == pk) = false := by simpa using hid
      simp only [List.find?_cons, hid'] at h
      simp only [List.map_cons]
      rw [if_neg hid]
      simp only [List.find?_cons, hid']
      exact ih h

/-- Helper: a successful get_object yields a find? hit on the raw store. -/
theorem get_object_find_inquiry (pk : Nat) (db : List ContactInquiry)
    (i0 : ContactInquiry)
    (h : ContactInquiryViewSet.get_object pk db = some i0) :
    ∃ r, db.find? (fun i => i.id == pk) = some r := by
  have hp := List.find?_some h
  have hm : i0 ∈ db.filter (fun i => i.is_active) :=
    List.mem_of_find?_eq_some h
  exact Option.isSome_iff_exists.mp
    (List.find?_isSome.mpr ⟨i0, (List.mem_filter.mp hm).1, hp⟩)

/-- Helper: review version of get_object_find_inquiry. -/
theorem get_object_find_review (pk : Nat) (db : List Review) (r0 : Review)
    (h : ReviewViewSet.get_object pk db = some r0) :
    ∃ r, db.find? (fun x => x.id == pk) = some r := by
  have hp := List.find?_some h
  have hm : r0 ∈ db.filter (fun x => x.is_active) :=
    List.mem_of_find?_eq_some h
  exact Option.isSome_iff_exists.mp
    (List.find?_isSome.mpr ⟨r0, (List.mem_filter.mp hm).1, hp⟩)

/-- C5: a successful soft delete flips is_active to false without purging:
    afterwards no record of the deleted primary key appears in the default
    (active-only) listing, the statistics total counts exactly the active
    records other than that key, and find? on the raw store still returns
    the record, now with is_active false (and a refreshed updated_at). -/
theorem C5_soft_delete_semantics (now pkI pkR : Nat) (st : SysState)
    (respI : HttpResponse) (stI : SysState)
    (respR : HttpResponse) (stR : SysState)
    (hI : ContactInquiryViewSet.destroy now pkI st = some (respI, stI))
    (hR : ReviewViewSet.destroy now pkR st = some (respR, stR)) :
    ((∀ i ∈ stI.inquiries.filter (fun i => i.is_active), i.id ≠ pkI) ∧
     (ContactInquiryViewSet.computeStatistics now stI.inquiries).total =
       (stI.inquiries.filter (fun i => i.is_active && i.id != pkI)).length ∧
     ∃ r, st.inquiries.find? (fun i => i.id == pkI) = some r ∧
       stI.inquiries.find? (fun i => i.id == pkI) =
         some { r with is_active := false, updated_at := now }) ∧
    ((∀ x ∈ stR.reviews.filter (fun x => x.is_active), x.id ≠ pkR) ∧
     countActiveReviews stR.reviews =
       (stR.reviews.filter (fun x => x.is_active && x.id != pkR)).length ∧
     ∃ r, st.reviews.find? (fun x => x.id == pkR) = some r ∧
       stR.reviews.find? (fun x => x.id == pkR) =
         some { r with is_active := false, updated_at := now }) := by
  unfold ContactInquiryViewSet.destroy at hI
  unfold ReviewViewSet.destroy at hR
  cases hgi : ContactInquiryViewSet.get_object pkI st.inquiries <;>
    simp only [hgi] at hI
  · exact absurd hI (by simp)
  cases hgr : ReviewViewSet.get_object pkR st.reviews <;>
    simp only [hgr] at hR
  · exact absurd hR (by simp)
  rename_i i0 r0
  obtain ⟨-, hstI⟩ := Prod.mk.injEq .. ▸ Option.some.inj hI
  obtain ⟨-, hstR⟩ := Prod.mk.injEq .. ▸ Option.some.inj hR
  subst hstI hstR
  constructor
  · obtain ⟨ex1, ex2⟩ := filter_active_excludes_inquiry pkI _
      (softDelete_inquiry_inactive now pkI st.inquiries)
    refine ⟨ex1, ex2, ?_⟩
    obtain ⟨r, hr⟩ := get_object_find_inquiry pkI st.inquiries i0 hgi
    exact ⟨r, hr, find_softDelete_inquiry now pkI st.inquiries r hr⟩
  · obtain ⟨ex1, ex2⟩ := filter_active_excludes_review pkR _
      (softDelete_review_inactive now pkR st.reviews)
    refine ⟨ex1, ex2, ?_⟩
    obtain ⟨r, hr⟩ := get_object_find_review pkR st.reviews r0 hgr
    exact ⟨r, hr, find_softDelete_review now pkR st.reviews r hr⟩

/-- C5 witness: soft-delete semantics evaluated on the one-record store,
    deleting inquiry 1 and review 1 at time 9. -/
theorem C5_witness :
    ((∀ i ∈ c5StateI.inquiries.filter (fun i => i.is_active), i.id ≠ 1) ∧
     (ContactInquiryViewSet.computeStatistics 9 c5StateI.inquiries).total =
       (c5StateI.inquiries.filter (fun i => i.is_active && i.id != 1)).length ∧
     ∃ r, c8State.inquiries.find? (fun i => i.id == 1) = some r ∧
       c5StateI.inquiries.find? (fun i => i.id == 1) =
         some { r with is_active := false, updated_at := 9 }) ∧
    ((∀ x ∈ c5StateR.reviews.filter (fun x => x.is_active), x.id ≠ 1) ∧
     countActiveReviews c5StateR.reviews =
       (c5StateR.reviews.filter (fun x => x.is_active && x.id != 1)).length ∧
     ∃ r, c8State.reviews.find? (fun x => x.id == 1) = some r ∧
       c5StateR.reviews.find? (fun x => x.id == 1) =
         some { r with is_active := false, updated_at := 9 }) :=
  C5_soft_delete_semantics 9 1 1 c8State c8RespI c5StateI c8RespR c5StateR
    (by decide) (by decide)

/- ===== C9 ===== -/

/-- C9: whenever every inquiry status is one of the four enum values, the
    statistics satisfy total = pending + in_progress + resolved + closed,
    each summand counting active inquiries only. -/
theorem C9_status_partition (now : Nat) (db : List ContactInquiry)
    (h : ∀ i ∈ db, i.status = "pending" ∨ i.status = "in_progress"
        ∨ i.status = "resolved" ∨ i.status = "closed") :
    (ContactInquiryViewSet.computeStatistics now db).total =
      (ContactInquiryViewSet.computeStatistics now db).pending +
      (ContactInquiryViewSet.computeStatistics now db).in_progress +
      (ContactInquiryViewSet.computeStatistics now db).resolved +
      (ContactInquiryViewSet.computeStatistics now db).closed := by
  simp only [ContactInquiryViewSet.computeStatistics, countActiveInquiries,
    countInquiriesWithStatus]
  induction db with
  | nil => simp
  | cons a t ih =>
    have ha := h a (by simp)
    have ht : ∀ i ∈ t, i.status = "pending" ∨ i.status = "in_progress"
        ∨ i.status = "resolved" ∨ i.status = "closed" :=
      fun i hi => h i (by simp [hi])
    rcases ha with ha | ha | ha | ha <;>
      cases hact : a.is_active <;>
        simp [List.filter_cons, ha, hact, ih ht] <;> omega

/-- C9 witness: the partition evaluated on the three-record store. -/
theorem C9_witness :
    (ContactInquiryViewSet.computeStatistics 0 c9Db).total =
      (ContactInquiryViewSet.computeStatistics 0 c9Db).pending +
      (ContactInquiryViewSet.computeStatistics 0 c9Db).in_progress +
      (ContactInquiryViewSet.computeStatistics 0 c9Db).resolved +
      (ContactInquiryViewSet.computeStatistics 0 c9Db).closed :=
  C9_status_partition 0 c9Db (by decide)

/- ===== C10 ===== -/

/-- C10: the single-record status-update action leaves admin_notes (and
    for reviews is_featured) unchanged when the body omits them, and never
    touches any field other than status, admin_notes, is_featured and the
    updated timestamp. -/
theorem C10_update_status_frame (now : Nat) (inq : ContactInquiry)
    (iin : ContactInquiryStatusUpdateInput) (inqRes : ContactInquiry)
    (r : Review) (rin : ReviewStatusUpdateInput) (rRes : Review)
    (hI : ContactInquiryViewSet.update_status now inq iin = some inqRes)
    (hR : ReviewViewSet.update_status now r rin = some rRes) :
    ((iin.admin_notes = none → inqRes.admin_notes = inq.admin_notes) ∧
     inqRes.id = inq.id ∧ inqRes.full_name = inq.full_name ∧
     inqRes.email = inq.email ∧ inqRes.phone = inq.phone ∧
     inqRes.inquiry_type = inq.inquiry_type ∧
     inqRes.subject = inq.subject ∧ inqRes.message = inq.message ∧
     inqRes.created_at = inq.created_at ∧
     inqRes.is_active = inq.is_active) ∧
    ((rin.admin_notes = none → rRes.admin_notes = r.admin_notes) ∧
     (rin.is_featured = none → rRes.is_featured = r.is_featured) ∧
     rRes.id = r.id ∧ rRes.customer_name = r.customer_name ∧
     rRes.customer_email = r.customer_email ∧
     rRes.destination = r.destination ∧
     rRes.package_name = r.package_name ∧ rRes.rating = r.rating ∧
     rRes.title = r.title ∧ rRes.review_text = r.review_text ∧
     rRes.travel_date = r.travel_date ∧
     rRes.service_rating = r.service_rating ∧
     rRes.value_rating = r.value_rating ∧
     rRes.accommodation_rating = r.accommodation_rating ∧
     rRes.created_at = r.created_at ∧ rRes.is_active = r.is_active) := by
  unfold ContactInquiryViewSet.update_status at hI
  unfold ReviewViewSet.update_status at hR
  split at hI
  · split at hR
    · injection hI with hI
      injection hR with hR
      subst hI hR
      refine ⟨⟨fun hno => by simp [hno], rfl, rfl, rfl, rfl, rfl, rfl, rfl,
        rfl, rfl⟩, ⟨fun hno => by simp [hno], fun hnf => by simp [hnf], rfl,
        rfl, rfl, rfl, rfl, rfl, rfl, rfl, rfl, rfl, rfl, rfl, rfl, rfl⟩⟩
    · exact absurd hR (by simp)
  · exact absurd hI (by simp)

/-- C10 witness: the frame property evaluated on concrete records whose
    update bodies omit the optional fields. -/
theorem C10_witness :
    ((c10InqIn.admin_notes = none →
        c10InqRes.admin_notes = c10Inq.admin_notes) ∧
     c10InqRes.id = c10Inq.id ∧ c10InqRes.full_name = c10Inq.full_name ∧
     c10InqRes.email = c10Inq.email ∧ c10InqRes.phone = c10Inq.phone ∧
     c10InqRes.inquiry_type = c10Inq.inquiry_type ∧
     c10InqRes.subject = c10Inq.subject ∧
     c10InqRes.message = c10Inq.message ∧
     c10InqRes.created_at = c10Inq.created_at ∧
     c10InqRes.is_active = c10Inq.is_active) ∧
    ((c10RevIn.admin_notes = none →
        c10RevRes.admin_notes = c10Rev.admin_notes) ∧
     (c10RevIn.is_featured = none →
        c10RevRes.is_featured = c10Rev.is_featured) ∧
     c10RevRes.id = c10Rev.id ∧
     c10RevRes.customer_name = c10Rev.customer_name ∧
     c10RevRes.customer_email = c10Rev.customer_email ∧
     c10RevRes.destination = c10Rev.destination ∧
     c10RevRes.package_name = c10Rev.package_name ∧
     c10RevRes.rating = c10Rev.rating ∧
     c10RevRes.title = c10Rev.title ∧
     c10RevRes.review_text = c10Rev.review_text ∧
     c10RevRes.travel_date = c10Rev.travel_date ∧
     c10RevRes.service_rating = c10Rev.service_rating ∧
     c10RevRes.value_rating = c10Rev.value_rating ∧
     c10RevRes.accommodation_rating = c10Rev.accommodation_rating ∧
     c10RevRes.created_at = c10Rev.created_at ∧
     c10RevRes.is_active = c10Rev.is_active) :=
  C10_update_status_frame 11 c10Inq c10InqIn c10InqRes c10Rev c10RevIn
    c10RevRes (by decide) (by decide)

end UjjainTT
